import Mathlib

/-!
Verification of the CADIN lookup application (`streamlit_app.py`) against its
natural-language specification.

The source is shallowly embedded: Python dict values become the inductive
type `Val`, Python truthiness becomes `truthy`, `x or y` becomes `pyOr`,
fallible Python operations (`.upper()` on a non-string, `re.sub` on a
non-string, `len()` on an unsized object) become `Except String` results.
Provider HTTP calls are abstracted by oracle functions carried in `Env`
(the transport layer is out of scope per the spec); configuration mirrors
the environment variables read at the top of the source.  UI side effects
(`st.warning`, `st.error`) and provider invocations are logged in `Eff`.

Provenance tags use the source's literal strings: "gateway" is the spec's
`general_gateway`, "serpro" is `direct_backend`, "pmsp_pf"/"pmsp_pj" are
`municipal_pf`/`municipal_pj`, and "demo" is `demo`.
-/

/-- A Python/JSON value as it appears in provider payloads. -/
inductive Val where
  | vnone
  | vstr (s : String)
  | vint (n : Int)
  | vfloat (q : Rat)
  | vlist (xs : List Val)
  | vdict (entries : List (String × Val))
deriving Repr

/-- Python truthiness for `Val`. -/
def truthy : Val → Bool
  | .vnone => false
  | .vstr s => s != ""
  | .vint n => n != 0
  | .vfloat q => q != 0
  | .vlist xs => !xs.isEmpty
  | .vdict es => !es.isEmpty

/-- Python's short-circuiting `a or b`. -/
def pyOr (a b : Val) : Val := if truthy a then a else b

/-- A raw provider payload: a Python dict from string keys to values. -/
abbrev Payload := List (String × Val)

/-- `data.get(k)` — `None` (here `Val.vnone`) when the key is absent. -/
def pyGet (data : Payload) (k : String) : Val :=
  match data.lookup k with
  | some v => v
  | none => .vnone

/-- `only_digits`: `re.sub(r"\D+", "", s or "")` on a string. -/
def only_digits (s : String) : String :=
  String.mk (s.toList.filter fun c => c.isDigit)

/-- `only_digits` applied to an arbitrary value, as in `normalize_payload`:
`re.sub` raises `TypeError` unless handed a string (`v or ""` first). -/
def only_digitsV (v : Val) : Except String String :=
  match pyOr v (.vstr "") with
  | .vstr s => .ok (only_digits s)
  | _ => .error "TypeError: expected string or bytes-like object"

/-- `str.upper()` character-wise (ASCII case mapping; the strings the
source manipulates are case-relevant only in ASCII). -/
def upperStr (s : String) : String := String.mk (s.toList.map Char.toUpper)

/-- Python `.upper()`: only strings have the attribute. -/
def pyUpper (v : Val) : Except String String :=
  match v with
  | .vstr s => .ok (upperStr s)
  | _ => .error "AttributeError: object has no attribute upper"

/-- `is_cpf`: 11 digits after canonicalization. -/
def is_cpf (d : String) : Bool := (only_digits d).length == 11

/-- `is_cnpj`: 14 digits after canonicalization. -/
def is_cnpj (d : String) : Bool := (only_digits d).length == 14

/-- `label_doc`. -/
def label_doc (d : String) : String :=
  if is_cpf d then "CPF" else if is_cnpj d then "CNPJ" else "Documento"

/-- `fmt_doc`: display grouping for 11- and 14-digit identifiers. -/
def fmt_doc (s : String) : String :=
  let d := only_digits s
  if d.length == 11 then
    d.take 3 ++ "." ++ ((d.drop 3).take 3) ++ "." ++ ((d.drop 6).take 3) ++ "-" ++ d.drop 9
  else if d.length == 14 then
    d.take 2 ++ "." ++ ((d.drop 2).take 3) ++ "." ++ ((d.drop 5).take 3) ++ "/" ++ ((d.drop 8).take 4) ++ "-" ++ d.drop 12
  else d

/-- The canonical record produced by `normalize_payload`:
`{"documento":…, "nome":…, "situacao":…, "pendencias":…, "_raw":…}`. -/
structure CanonicalRecord where
  documento : String
  nome : Val
  situacao : String
  pendencias : Val
  raw : Payload
deriving Repr

/-- `normalize_payload(data, doc)`.  Field resolution mirrors the source:
truthiness-based alias chains with `pyOr`; `only_digits` and `.upper()` can
raise on non-string selections, in source order (documento first, then
situacao); a bare dict of pending items is promoted to a singleton list;
the raw payload is kept in `_raw`. -/
def normalize_payload (data : Payload) (doc : String) : Except String CanonicalRecord :=
  match only_digitsV (pyOr (pyGet data "documento") (pyOr (pyGet data "cpf") (pyOr (pyGet data "cnpj") (.vstr doc)))) with
  | .error m => .error m
  | .ok documento =>
    let nome := pyOr (pyGet data "nome") (pyOr (pyGet data "razao_social") (pyOr (pyGet data "razaoSocial") (.vstr "—")))
    match pyUpper (pyOr (pyGet data "situacao") (pyOr (pyGet data "status") (.vstr "—"))) with
    | .error m => .error m
    | .ok situacao =>
      let pend0 := pyOr (pyGet data "pendencias") (pyOr (pyGet data "itens") (pyOr (pyGet data "debts") (.vlist [])))
      let pend : Val :=
        match pend0 with
        | .vdict es => .vlist [.vdict es]
        | v => v
      .ok { documento := documento, nome := nome, situacao := situacao,
            pendencias := pend, raw := data }

/-- `demo_payload`'s name choice. -/
def demo_name (d : String) : String :=
  if is_cpf d then "Pessoa Física (demo)"
  else if is_cnpj d then "Empresa Ltda (demo)"
  else "Documento (demo)"

/-- `(int(d[-1]) % 2 == 1) if d else False` for a digits-only string. -/
def last_digit_odd (d : String) : Bool :=
  match d.toList.getLast? with
  | some c => (c.toNat - '0'.toNat) % 2 == 1
  | none => false

/-- The synthetic pending-items list in `demo_payload`. -/
def demo_pend (d : String) : Val :=
  if last_digit_odd d then
    .vlist [.vdict [("orgao", .vstr (if is_cpf d then "PMSP" else "União")),
                    ("origem", .vstr "Tributo"),
                    ("numero", .vstr "000123/2024"),
                    ("data", .vstr "2024-08-12"),
                    ("valor", .vfloat ((1999 : Rat) / 10))]]
  else .vlist []

/-- The dict literal built inside `demo_payload` before normalization. -/
def demo_dict (d : String) : Payload :=
  [("documento", .vstr d),
   ("nome", .vstr (demo_name d)),
   ("situacao", .vstr (if last_digit_odd d then "IRREGULAR" else "REGULAR")),
   ("pendencias", demo_pend d)]

/-- `demo_payload(document)`: canonicalize, synthesize, normalize. -/
def demo_payload (document : String) : Except String CanonicalRecord :=
  let d := only_digits document
  normalize_payload (demo_dict d) d

/-- The environment variables read at startup (`os.getenv` results). -/
structure Config where
  GATEWAY_URL : Option String
  INTERNAL_API_KEY : Option String
  SERPRO_BASE : Option String
  SERPRO_TOKEN : Option String
  PMSP_GATEWAY_URL : Option String
  PMSP_API_KEY : Option String

/-- Truthiness of an optional environment string (absent or empty ⇒ falsy). -/
def truthyOpt : Option String → Bool
  | none => false
  | some s => s != ""

/-- `GATEWAY_URL and INTERNAL_API_KEY`. -/
def gateway_configured (c : Config) : Bool :=
  truthyOpt c.GATEWAY_URL && truthyOpt c.INTERNAL_API_KEY

/-- `SERPRO_BASE and SERPRO_TOKEN`. -/
def serpro_configured (c : Config) : Bool :=
  truthyOpt c.SERPRO_BASE && truthyOpt c.SERPRO_TOKEN

/-- `PMSP_GATEWAY_URL and PMSP_API_KEY`. -/
def pmsp_configured (c : Config) : Bool :=
  truthyOpt c.PMSP_GATEWAY_URL && truthyOpt c.PMSP_API_KEY

/-- The process environment: configuration plus network oracles, one per
provider endpoint.  An oracle maps the digits placed in the URL (and, for
the municipal person provider, the `dtnasc` query parameter) to the outcome
of the HTTP round-trip: `.ok` a parsed JSON body, `.error` any transport,
status, or parse failure. -/
structure Env where
  cfg : Config
  gatewayFetch : String → Except String Payload
  serproFetch : String → Except String Payload
  pmspPfFetch : String → String → Except String Payload
  pmspPjFetch : String → Except String Payload

/-- Observable side effects of one resolution: provider invocations
(network attempts, in order), `st.warning` texts and `st.error` texts. -/
structure Eff where
  calls : List String
  warnings : List String
  errors : List String
deriving Repr, DecidableEq

def Eff.init : Eff := ⟨[], [], []⟩

def logCall (e : Eff) (p : String) : Eff := { e with calls := e.calls ++ [p] }

def logWarn (e : Eff) (m : String) : Eff := { e with warnings := e.warnings ++ [m] }

def logErr (e : Eff) (m : String) : Eff := { e with errors := e.errors ++ [m] }

/-- `fetch_cadin_via_gateway`: configuration is rechecked inside the client
(a `RuntimeError` when missing), then the URL is built from
`only_digits(document)`. -/
def fetch_cadin_via_gateway (env : Env) (document : String) : Except String Payload :=
  if gateway_configured env.cfg then env.gatewayFetch (only_digits document)
  else .error "Gateway padrão não configurado"

/-- `fetch_cadin_via_serpro_direct`. -/
def fetch_cadin_via_serpro_direct (env : Env) (document : String) : Except String Payload :=
  if serpro_configured env.cfg then env.serproFetch (only_digits document)
  else .error "SERPRO não configurado"

/-- `fetch_cadin_pmsp_pf` (person): CPF digits in the path, `dtnasc` as a
query parameter. -/
def fetch_cadin_pmsp_pf (env : Env) (cpf dtnasc : String) : Except String Payload :=
  if pmsp_configured env.cfg then env.pmspPfFetch (only_digits cpf) dtnasc
  else .error "Gateway PMSP não configurado"

/-- `fetch_cadin_pmsp_pj` (entity). -/
def fetch_cadin_pmsp_pj (env : Env) (cnpj : String) : Except String Payload :=
  if pmsp_configured env.cfg then env.pmspPjFetch (only_digits cnpj)
  else .error "Gateway PMSP não configurado"

/-- Step 3 of `resolve_general`: the demo terminal fallback. -/
def general_demo (document : String) (e : Eff) :
    Except String (CanonicalRecord × String) × Eff :=
  ((demo_payload document).map (fun r => (r, "demo")), e)

/-- Step 2 of `resolve_general`: the SERPRO direct attempt; failures
(fetch or normalization, both inside the `try`) warn and fall through. -/
def general_serpro (env : Env) (document : String) (e : Eff) :
    Except String (CanonicalRecord × String) × Eff :=
  if serpro_configured env.cfg then
    let e := logCall e "serpro"
    match fetch_cadin_via_serpro_direct env document with
    | .error m => general_demo document (logWarn e ("SERPRO falhou: " ++ m))
    | .ok data =>
      match normalize_payload data document with
      | .error m => general_demo document (logWarn e ("SERPRO falhou: " ++ m))
      | .ok rec => (.ok (rec, "serpro"), e)
  else general_demo document e

/-- `resolve_general(document)`: Gateway → SERPRO → Demo, returning the
normalized payload and its provenance tag. -/
def resolve_general (env : Env) (document : String) (e : Eff) :
    Except String (CanonicalRecord × String) × Eff :=
  if gateway_configured env.cfg then
    let e := logCall e "gateway"
    match fetch_cadin_via_gateway env document with
    | .error m => general_serpro env document (logWarn e ("Gateway falhou: " ++ m))
    | .ok data =>
      match normalize_payload data document with
      | .error m => general_serpro env document (logWarn e ("Gateway falhou: " ++ m))
      | .ok rec => (.ok (rec, "gateway"), e)
  else general_serpro env document e

/-- Python `str.strip()`: drop leading and trailing whitespace
(structural, so that closed terms reduce in the kernel). -/
def pyStrip (s : String) : String :=
  String.mk (((s.toList.dropWhile Char.isWhitespace).reverse.dropWhile Char.isWhitespace).reverse)

/-- The strict birth-date pattern `^\d{2}/\d{2}/\d{4}$`. -/
def dtnasc_pattern (t : String) : Bool :=
  match t.toList with
  | [a, b, s1, c, d, s2, x1, x2, x3, x4] =>
    a.isDigit && b.isDigit && s1 == '/' && c.isDigit && d.isDigit && s2 == '/' &&
    x1.isDigit && x2.isDigit && x3.isDigit && x4.isDigit
  | _ => false

/-- `not dtnasc or not re.match(r"^\d{2}/\d{2}/\d{4}$", dtnasc.strip())`,
negated: the birth date is usable iff it is truthy and its stripped form
matches the pattern. -/
def dtnasc_valid (dt : Option String) : Bool :=
  match dt with
  | none => false
  | some s => (s != "") && dtnasc_pattern (pyStrip s)

/-- `resolve_pmsp(document, dtnasc)`: the municipal flow.  Returns the pair
`(payload, fonte)` exactly as the source does — `(None, None)` when the
provider is unconfigured, when the birth date is missing/malformed for a
person, when a provider call fails, and when the document fits neither
kind. -/
def resolve_pmsp (env : Env) (document : String) (dtnasc : Option String) (e : Eff) :
    (Option CanonicalRecord × Option String) × Eff :=
  if pmsp_configured env.cfg then
    if is_cpf document then
      if dtnasc_valid dtnasc then
        let e := logCall e "pmsp_pf"
        match fetch_cadin_pmsp_pf env document (pyStrip (dtnasc.getD "")) with
        | .error m => ((none, none), logWarn e ("PMSP PF falhou: " ++ m))
        | .ok data =>
          match normalize_payload data document with
          | .error m => ((none, none), logWarn e ("PMSP PF falhou: " ++ m))
          | .ok rec => ((some rec, some "pmsp_pf"), e)
      else
        ((none, none), logErr e "Para PMSP – PF, informe data de nascimento no formato dd/mm/aaaa.")
    else if is_cnpj document then
      let e := logCall e "pmsp_pj"
      match fetch_cadin_pmsp_pj env document with
      | .error m => ((none, none), logWarn e ("PMSP PJ falhou: " ++ m))
      | .ok data =>
        match normalize_payload data document with
        | .error m => ((none, none), logWarn e ("PMSP PJ falhou: " ++ m))
        | .ok rec => ((some rec, some "pmsp_pj"), e)
    else
      ((none, none), logErr e "Documento inválido para PMSP.")
  else ((none, none), e)

/-- The resolution step of `render_single` after input validation
(lines 271–278): municipal flow first when enabled, with fall-through to
the general flow whenever it yields no payload. -/
def resolve_single (env : Env) (pmsp_on : Bool) (clean : String) (dtnasc : Option String) (e : Eff) :
    Except String (CanonicalRecord × String) × Eff :=
  let step := if pmsp_on then resolve_pmsp env clean dtnasc e else ((none, none), e)
  match step with
  | ((some p, fonte), e) => (.ok (p, fonte.getD ""), e)
  | ((none, _), e) => resolve_general env clean e

/-- The batch input frame: the mandatory `documento` column and the
optional `dtnasc` column (absent when the CSV has no such column). -/
structure Frame where
  documento : List String
  dtnasc : Option (List String)

/-- The filtered identifier list of `render_batch`: canonicalize every
`documento` cell, keep the 11- and 14-digit ones. -/
def valid_docs (col : List String) : List String :=
  (col.map only_digits).filter (fun d => d.length == 11 || d.length == 14)

/-- The birth date `render_batch` reads for the row at post-filter position
`k`: `str(df.loc[df.index[k], "dtnasc"] or "").strip()` with any lookup
failure degraded to the empty string — note the index is the position in
the *filtered* document list, applied to the *original* frame. -/
def batch_dtnasc (frame : Frame) (k : Nat) : String :=
  match frame.dtnasc with
  | none => ""
  | some col => pyStrip ((col.get? k).getD "")

/-- One row of the batch report. -/
structure BatchRow where
  documento : String
  tipo : String
  nome : Val
  situacao : String
  qtd_pendencias : Nat
  fonte : String
deriving Repr

/-- The `TypeError` text for `len()` on an unsized value. -/
def lenErrMsg : String := "TypeError: object has no len()"

/-- Python `len()`: defined for sized values only. -/
def pyLen (v : Val) : Except String Nat :=
  match v with
  | .vstr s => .ok s.length
  | .vlist xs => .ok xs.length
  | .vdict es => .ok es.length
  | _ => .error lenErrMsg

/-- `len(payload.get("pendencias") or [])`. -/
def pend_count (v : Val) : Except String Nat :=
  if truthy v then pyLen v else .ok 0

/-- Resolution part of `render_batch`'s loop body for the identifier `d`
at post-filter position `k`: municipal flow first when enabled (with the
positionally looked-up birth date, fetched only for person documents),
then the general flow. -/
def row_payload (env : Env) (pmsp_on : Bool) (frame : Frame) (k : Nat) (d : String) :
    Except String (CanonicalRecord × String) :=
  match (if pmsp_on then
           (resolve_pmsp env d (some (if is_cpf d then batch_dtnasc frame k else "")) Eff.init).1
         else (none, none)) with
  | (some p, fonte) => .ok (p, fonte.getD "")
  | (none, _) => (resolve_general env d Eff.init).1

/-- The body of `render_batch`'s loop for the identifier `d` at post-filter
position `k`: resolution then row assembly.  The only uncaught failure is
`len()` on an unsized pending-items value. -/
def row_for (env : Env) (pmsp_on : Bool) (frame : Frame) (k : Nat) (d : String) :
    Except String BatchRow :=
  match row_payload env pmsp_on frame k d with
  | .error m => .error m
  | .ok (payload, fonte) =>
    match pend_count payload.pendencias with
    | .error m => .error m
    | .ok n =>
      .ok { documento := fmt_doc d, tipo := label_doc d, nome := payload.nome,
            situacao := payload.situacao, qtd_pendencias := n, fonte := fonte }

/-- The report accumulation loop: rows in input order; an uncaught
exception in one row aborts the whole render with nothing output. -/
def rows_loop (env : Env) (pmsp_on : Bool) (frame : Frame) :
    Nat → List String → Except String (List BatchRow)
  | _, [] => .ok []
  | k, d :: rest =>
    match row_for env pmsp_on frame k d with
    | .error m => .error m
    | .ok r =>
      match rows_loop env pmsp_on frame (k + 1) rest with
      | .error m => .error m
      | .ok rs => .ok (r :: rs)

/-- `st.error` text when no valid identifier survives filtering. -/
def noValidMsg : String := "Nenhum CPF/CNPJ válido encontrado."

/-- `render_batch` from the filtered document list onward: abort with
`noValidMsg` when nothing valid remains, otherwise produce the report. -/
def render_batch_result (env : Env) (pmsp_on : Bool) (frame : Frame) :
    Except String (List BatchRow) :=
  let docs := valid_docs frame.documento
  if docs.isEmpty then .error noValidMsg
  else rows_loop env pmsp_on frame 0 docs

/-- A cache key: provider identity, canonical identifier, and the
disambiguating extra parameter (the birth date for the municipal person
provider; empty otherwise). -/
abbrev CacheKey := String × String × String

/-- One cache slot: the successfully fetched payload and its store time
(seconds). -/
structure CacheEntry where
  value : Payload
  storedAt : Nat
deriving Repr

/-- The TTL passed to every `st.cache_data` decorator in the source. -/
def CACHE_TTL : Nat := 600

/-- Outcome of one cached lookup: the result handed to the caller, the
cache afterwards, and whether a network call was issued. -/
structure CacheLookupResult where
  result : Except String Payload
  cache : List (CacheKey × CacheEntry)
  networkCalled : Bool

/-- Modelled from the spec: the Result Cache semantics of the
`st.cache_data(ttl=600)` decorators — library behavior not under `src/`.
Per §4.2 of the spec: a hit within the TTL window returns the stored
payload with no network call; expiry is checked passively at lookup time;
only successful fetches populate the cache, a failed attempt stores
nothing.  `net t` is the network outcome of a fetch issued at time `t`. -/
def cache_lookup (net : Nat → Except String Payload)
    (cache : List (CacheKey × CacheEntry)) (k : CacheKey) (t : Nat) :
    CacheLookupResult :=
  let miss : CacheLookupResult :=
    match net t with
    | .ok v => ⟨.ok v, (k, ⟨v, t⟩) :: cache, true⟩
    | .error m => ⟨.error m, cache, true⟩
  match cache.lookup k with
  | some entry =>
    if t - entry.storedAt < CACHE_TTL then ⟨.ok entry.value, cache, false⟩
    else miss
  | none => miss

/-! ### Basic lemmas -/

lemma only_digits_idem (s : String) : only_digits (only_digits s) = only_digits s := by
  unfold only_digits
  have h : (String.mk (s.toList.filter fun c => c.isDigit)).toList
      = s.toList.filter fun c => c.isDigit := rfl
  rw [h, List.filter_filter]
  simp

lemma truthy_vstr_of_ne (s : String) (h : s ≠ "") : truthy (.vstr s) = true := by
  simp [truthy, bne_iff_ne.mpr h]

lemma demo_name_ne (d : String) : demo_name d ≠ "" := by
  unfold demo_name
  split
  · decide
  · split <;> decide

/-- The canonical record `demo_payload` always produces. -/
def demo_record (document : String) : CanonicalRecord :=
  let d := only_digits document
  { documento := d, nome := .vstr (demo_name d),
    situacao := if last_digit_odd d then "IRREGULAR" else "REGULAR",
    pendencias := demo_pend d, raw := demo_dict d }

lemma demo_norm (d : String) (hd : only_digits d = d) :
    normalize_payload (demo_dict d) d =
      .ok ⟨d, .vstr (demo_name d), (if last_digit_odd d then "IRREGULAR" else "REGULAR"),
           demo_pend d, demo_dict d⟩ := by
  by_cases h : d = ""
  · subst h; rfl
  · have hb := truthy_vstr_of_ne d h
    have hname := truthy_vstr_of_ne (demo_name d) (demo_name_ne d)
    have hn2 : ¬(demo_name d = "") := demo_name_ne d
    have hu1 : upperStr "REGULAR" = "REGULAR" := by decide
    have hu2 : upperStr "IRREGULAR" = "IRREGULAR" := by decide
    cases hodd : last_digit_odd d with
    | false =>
      simp [normalize_payload, demo_dict, demo_pend, hodd, pyGet, List.lookup,
            only_digitsV, pyOr, hb, hname, pyUpper, hd, truthy, h, hn2, hu1, hu2]
    | true =>
      simp [normalize_payload, demo_dict, demo_pend, hodd, pyGet, List.lookup,
            only_digitsV, pyOr, hb, hname, pyUpper, hd, truthy, h, hn2, hu1, hu2]

/-- `demo_payload` is total: it always returns the demo record. -/
lemma demo_payload_eq (document : String) :
    demo_payload document = .ok (demo_record document) := by
  unfold demo_payload demo_record
  exact demo_norm (only_digits document) (only_digits_idem document)

lemma general_demo_eq (document : String) (e : Eff) :
    general_demo document e = (.ok (demo_record document, "demo"), e) := by
  simp [general_demo, demo_payload_eq, Except.map]

lemma general_serpro_fail (env : Env) (document : String) (e : Eff)
    (hs : serpro_configured env.cfg = false ∨
          ∃ m, env.serproFetch (only_digits document) = .error m) :
    (general_serpro env document e).1 = .ok (demo_record document, "demo") := by
  rcases hs with hs | ⟨m, hm⟩
  · simp [general_serpro, hs, general_demo_eq]
  · by_cases hc : serpro_configured env.cfg = true
    · simp [general_serpro, hc, fetch_cadin_via_serpro_direct, hm, general_demo_eq]
    · simp [general_serpro, hc, general_demo_eq]

lemma resolve_general_demo_of_fail (env : Env) (document : String) (e : Eff)
    (hg : gateway_configured env.cfg = false ∨
          ∃ m, env.gatewayFetch (only_digits document) = .error m)
    (hs : serpro_configured env.cfg = false ∨
          ∃ m, env.serproFetch (only_digits document) = .error m) :
    (resolve_general env document e).1 = .ok (demo_record document, "demo") := by
  have h2 : ∀ e2 : Eff, (general_serpro env document e2).1 = .ok (demo_record document, "demo") :=
    fun e2 => general_serpro_fail env document e2 hs
  rcases hg with hg | ⟨m, hm⟩
  · simp only [resolve_general, hg, Bool.false_eq_true, if_false]
    exact h2 e
  · by_cases hc : gateway_configured env.cfg = true
    · simp only [resolve_general, hc, if_true, fetch_cadin_via_gateway, hm]
      exact h2 _
    · simp only [resolve_general, hc, if_false]
      exact h2 e

lemma general_serpro_isOk (env : Env) (document : String) (e : Eff) :
    ∃ p, (general_serpro env document e).1 = .ok p := by
  unfold general_serpro
  split
  · split
    · rw [general_demo_eq]; exact ⟨_, rfl⟩
    · split
      · rw [general_demo_eq]; exact ⟨_, rfl⟩
      · exact ⟨_, rfl⟩
  · rw [general_demo_eq]; exact ⟨_, rfl⟩

lemma resolve_general_isOk (env : Env) (document : String) (e : Eff) :
    ∃ p, (resolve_general env document e).1 = .ok p := by
  unfold resolve_general
  split
  · split
    · exact general_serpro_isOk env document _
    · split
      · exact general_serpro_isOk env document _
      · exact ⟨_, rfl⟩
  · exact general_serpro_isOk env document e

/-- Every provider of the general flow is unconfigured or failing on the
network for this document. -/
def general_all_fail (env : Env) (d : String) : Prop :=
  (gateway_configured env.cfg = false ∨ ∃ m, env.gatewayFetch (only_digits d) = .error m) ∧
  (serpro_configured env.cfg = false ∨ ∃ m, env.serproFetch (only_digits d) = .error m)

/-- The municipal provider is unconfigured or failing on the network for
this document. -/
def pmsp_all_fail (env : Env) (d : String) : Prop :=
  pmsp_configured env.cfg = false ∨
  ((∀ dt, ∃ m, env.pmspPfFetch (only_digits d) dt = .error m) ∧
   (∃ m, env.pmspPjFetch (only_digits d) = .error m))

/-- Every provider is unconfigured or failing for this document. -/
def provider_all_fail (env : Env) (d : String) : Prop :=
  general_all_fail env d ∧ pmsp_all_fail env d

lemma resolve_pmsp_none_of_fail (env : Env) (d : String) (dt : Option String) (e : Eff)
    (h : pmsp_all_fail env d) : (resolve_pmsp env d dt e).1 = (none, none) := by
  unfold resolve_pmsp
  rcases h with h | ⟨hpf, ⟨mj, hpj⟩⟩
  · simp [h]
  · by_cases hc : pmsp_configured env.cfg = true
    · simp only [hc, if_true]
      by_cases hcpf : is_cpf d = true
      · simp only [hcpf, if_true]
        by_cases hdt : dtnasc_valid dt = true
        · obtain ⟨mf, hmf⟩ := hpf (pyStrip (dt.getD ""))
          simp [hdt, fetch_cadin_pmsp_pf, hc, hmf]
        · simp [hdt]
      · simp only [hcpf]
        by_cases hcnpj : is_cnpj d = true
        · simp [hcnpj, fetch_cadin_pmsp_pj, hc, hpj]
        · simp [hcnpj]
    · simp [hc]

/-- The degraded-but-present row produced for a document all of whose
providers fail. -/
def demo_batch_row (d : String) : BatchRow :=
  { documento := fmt_doc d, tipo := label_doc d, nome := (demo_record d).nome,
    situacao := (demo_record d).situacao,
    qtd_pendencias := if last_digit_odd (only_digits d) then 1 else 0,
    fonte := "demo" }

lemma pend_count_demo (d : String) :
    pend_count (demo_record d).pendencias =
      .ok (if last_digit_odd (only_digits d) then 1 else 0) := by
  unfold demo_record demo_pend
  cases h : last_digit_odd (only_digits d) <;>
    simp [h, pend_count, truthy, pyLen]

lemma row_payload_isOk (env : Env) (pmsp_on : Bool) (frame : Frame) (k : Nat) (d : String) :
    ∃ q, row_payload env pmsp_on frame k d = .ok q := by
  unfold row_payload
  split
  · exact ⟨_, rfl⟩
  · exact resolve_general_isOk env d Eff.init

lemma row_payload_demo (env : Env) (pmsp_on : Bool) (frame : Frame) (k : Nat) (d : String)
    (h : provider_all_fail env d) :
    row_payload env pmsp_on frame k d = .ok (demo_record d, "demo") := by
  obtain ⟨⟨hg, hs⟩, hp⟩ := h
  have hres := resolve_general_demo_of_fail env d Eff.init (by exact hg) (by exact hs)
  unfold row_payload
  cases hpm : pmsp_on with
  | true =>
    rw [if_pos rfl, resolve_pmsp_none_of_fail env d _ Eff.init hp]
    exact hres
  | false =>
    simp only [Bool.false_eq_true, if_false]
    exact hres

lemma row_for_demo (env : Env) (pmsp_on : Bool) (frame : Frame) (k : Nat) (d : String)
    (h : provider_all_fail env d) :
    row_for env pmsp_on frame k d = .ok (demo_batch_row d) := by
  unfold row_for
  rw [row_payload_demo env pmsp_on frame k d h]
  simp only [pend_count_demo]
  rfl

lemma pend_count_error (v : Val) (m : String) (h : pend_count v = .error m) : m = lenErrMsg := by
  unfold pend_count pyLen at h
  split at h
  · split at h <;> simp_all
  · simp_all

lemma row_for_error (env : Env) (pmsp_on : Bool) (frame : Frame) (k : Nat) (d : String)
    (m : String) (h : row_for env pmsp_on frame k d = .error m) : m = lenErrMsg := by
  obtain ⟨q, hq⟩ := row_payload_isOk env pmsp_on frame k d
  unfold row_for at h
  rw [hq] at h
  obtain ⟨payload, fonte⟩ := q
  simp only at h
  cases hpc : pend_count payload.pendencias with
  | error mm =>
    rw [hpc] at h
    simp only [Except.error.injEq] at h
    exact h ▸ pend_count_error payload.pendencias mm hpc
  | ok n =>
    rw [hpc] at h
    simp at h

lemma row_for_fields (env : Env) (pmsp_on : Bool) (frame : Frame) (k : Nat) (d : String)
    (r : BatchRow) (h : row_for env pmsp_on frame k d = .ok r) :
    r.documento = fmt_doc d ∧ r.tipo = label_doc d := by
  unfold row_for at h
  split at h
  · exact absurd h (by simp)
  · split at h
    · exact absurd h (by simp)
    · obtain rfl : _ = r := Except.ok.inj h
      exact ⟨rfl, rfl⟩

lemma rows_loop_spec (env : Env) (pmsp_on : Bool) (frame : Frame) (ds : List String) :
    ∀ (k : Nat) (rows : List BatchRow), rows_loop env pmsp_on frame k ds = .ok rows →
      rows.length = ds.length ∧
      ∀ i (hi : i < ds.length), ∃ hr : i < rows.length,
        row_for env pmsp_on frame (k + i) (ds.get ⟨i, hi⟩) = .ok (rows.get ⟨i, hr⟩) := by
  induction ds with
  | nil =>
    intro k rows h
    simp only [rows_loop, Except.ok.injEq] at h
    subst h
    exact ⟨rfl, fun i hi => absurd hi (by simp)⟩
  | cons d rest ih =>
    intro k rows h
    unfold rows_loop at h
    cases h1 : row_for env pmsp_on frame k d with
    | error m => rw [h1] at h; simp at h
    | ok r =>
      rw [h1] at h
      simp only at h
      cases h2 : rows_loop env pmsp_on frame (k + 1) rest with
      | error m => rw [h2] at h; simp at h
      | ok rs =>
        rw [h2] at h
        simp only [Except.ok.injEq] at h
        subst h
        obtain ⟨hlen, hget⟩ := ih (k + 1) rs h2
        refine ⟨by simp [hlen], ?_⟩
        intro i hi
        cases i with
        | zero =>
          refine ⟨by simp, ?_⟩
          simpa using h1
        | succ j =>
          have hj : j < rest.length := by simpa using hi
          obtain ⟨hr, hrow⟩ := hget j hj
          refine ⟨by simpa using hr, ?_⟩
          have hk : k + (j + 1) = (k + 1) + j := by omega
          rw [hk]
          simpa using hrow

lemma rows_loop_all_ok (env : Env) (pmsp_on : Bool) (frame : Frame) (ds : List String) :
    ∀ (k : Nat),
      (∀ i (hi : i < ds.length), ∃ r, row_for env pmsp_on frame (k + i) (ds.get ⟨i, hi⟩) = .ok r) →
      ∃ rows, rows_loop env pmsp_on frame k ds = .ok rows := by
  induction ds with
  | nil => intro k _; exact ⟨[], rfl⟩
  | cons d rest ih =>
    intro k h
    obtain ⟨r, hr⟩ := h 0 (by simp)
    have hr' : row_for env pmsp_on frame k d = .ok r := by simpa using hr
    obtain ⟨rows, hrows⟩ := ih (k + 1) (fun i hi => by
      obtain ⟨r', hr2⟩ := h (i + 1) (by simpa using Nat.succ_lt_succ hi)
      refine ⟨r', ?_⟩
      have hk : k + (i + 1) = (k + 1) + i := by omega
      rw [← hk]
      simpa using hr2)
    refine ⟨r :: rows, ?_⟩
    unfold rows_loop
    rw [hr', hrows]

lemma rows_loop_error (env : Env) (pmsp_on : Bool) (frame : Frame) (ds : List String) :
    ∀ (k : Nat) (m : String), rows_loop env pmsp_on frame k ds = .error m → m = lenErrMsg := by
  induction ds with
  | nil => intro k m h; simp [rows_loop] at h
  | cons d rest ih =>
    intro k m h
    unfold rows_loop at h
    cases h1 : row_for env pmsp_on frame k d with
    | error mm =>
      rw [h1] at h
      simp only [Except.error.injEq] at h
      exact h ▸ row_for_error env pmsp_on frame k d mm h1
    | ok r =>
      rw [h1] at h
      simp only at h
      cases h2 : rows_loop env pmsp_on frame (k + 1) rest with
      | error mm =>
        rw [h2] at h
        simp only [Except.error.injEq] at h
        exact h ▸ ih (k + 1) mm h2
      | ok rs => rw [h2] at h; simp at h

/-! ### Test fixtures (concrete environments for witnesses and
counterexamples) -/

/-- Nothing configured. -/
def cfgNone : Config := ⟨none, none, none, none, none, none⟩

/-- No provider configured; every oracle fails (unreachable anyway). -/
def envNone : Env :=
  ⟨cfgNone, fun _ => .error "no provider", fun _ => .error "no provider",
   fun _ _ => .error "no provider", fun _ => .error "no provider"⟩

/-- Gateway and SERPRO configured. -/
def cfgC1 : Config :=
  ⟨some "https://gw.example", some "key1", some "https://serpro.example", some "tok", none, none⟩

def serproPayload : Payload :=
  [("documento", .vstr "52998224725"), ("nome", .vstr "Fulano de Tal"),
   ("situacao", .vstr "regular"), ("pendencias", .vlist [])]

/-- Gateway configured but failing; SERPRO configured and succeeding. -/
def envC1 : Env :=
  ⟨cfgC1, fun _ => .error "HTTP 500", fun _ => .ok serproPayload,
   fun _ _ => .error "unreachable", fun _ => .error "unreachable"⟩

def serproRec : CanonicalRecord :=
  ⟨"52998224725", .vstr "Fulano de Tal", "REGULAR", .vlist [], serproPayload⟩

/-! ### Claim theorems -/

/-- C1: in the general flow, when the GeneralGateway provider is
configured but its fetch fails, and the DirectBackend provider is
configured, its fetch succeeds and its payload normalizes to `rec`,
`resolve_general` returns that normalized payload with provenance
"serpro" (the spec's `direct_backend`) — which is neither the
GeneralGateway tag "gateway" nor "demo"; the provenance names the
provider that actually produced the record. -/
theorem c1_general_flow_direct_backend_provenance
    (env : Env) (document : String) (e : Eff) (m : String) (data : Payload)
    (rec : CanonicalRecord)
    (hg : gateway_configured env.cfg = true)
    (hgf : env.gatewayFetch (only_digits document) = .error m)
    (hs : serpro_configured env.cfg = true)
    (hsf : env.serproFetch (only_digits document) = .ok data)
    (hn : normalize_payload data document = .ok rec) :
    (resolve_general env document e).1 = .ok (rec, "serpro") ∧
    ("serpro" : String) ≠ "gateway" ∧ ("serpro" : String) ≠ "demo" := by
  refine ⟨?_, by decide, by decide⟩
  simp only [resolve_general, fetch_cadin_via_gateway, hg, if_true, hgf]
  simp only [general_serpro, fetch_cadin_via_serpro_direct, hs, if_true, hsf, hn]

theorem c1_witness :
    (resolve_general envC1 "52998224725" Eff.init).1 = .ok (serproRec, "serpro") ∧
    ("serpro" : String) ≠ "gateway" ∧ ("serpro" : String) ≠ "demo" :=
  c1_general_flow_direct_backend_provenance envC1 "52998224725" Eff.init
    "HTTP 500" serproPayload serproRec rfl rfl rfl rfl rfl

/-- C2: for an identifier of valid length, when every real provider of the
general flow is unconfigured or fails, `resolve_general` still returns a
result (`.ok`, it never raises) with provenance "demo", and the demo
record is determined by the identifier's last digit: even → "REGULAR"
with no pending items, odd → "IRREGULAR" with exactly one synthetic
pending item. -/
theorem c2_general_flow_demo_fallback
    (env : Env) (document : String) (e : Eff)
    (hlen : (only_digits document).length = 11 ∨ (only_digits document).length = 14)
    (hg : gateway_configured env.cfg = false ∨
          ∃ m, env.gatewayFetch (only_digits document) = .error m)
    (hs : serpro_configured env.cfg = false ∨
          ∃ m, env.serproFetch (only_digits document) = .error m) :
    (resolve_general env document e).1 = .ok (demo_record document, "demo") ∧
    (last_digit_odd (only_digits document) = false →
      (demo_record document).situacao = "REGULAR" ∧
      (demo_record document).pendencias = .vlist []) ∧
    (last_digit_odd (only_digits document) = true →
      (demo_record document).situacao = "IRREGULAR" ∧
      ∃ item, (demo_record document).pendencias = .vlist [item]) := by
  refine ⟨resolve_general_demo_of_fail env document e hg hs, ?_, ?_⟩
  · intro hodd
    constructor
    · simp [demo_record, hodd]
    · simp [demo_record, demo_pend, hodd]
  · intro hodd
    constructor
    · simp [demo_record, hodd]
    · simp only [demo_record, demo_pend, hodd, if_true]
      exact ⟨_, rfl⟩

theorem c2_witness :
    (resolve_general envNone "52998224725" Eff.init).1 = .ok (demo_record "52998224725", "demo") ∧
    (last_digit_odd (only_digits "52998224725") = false →
      (demo_record "52998224725").situacao = "REGULAR" ∧
      (demo_record "52998224725").pendencias = .vlist []) ∧
    (last_digit_odd (only_digits "52998224725") = true →
      (demo_record "52998224725").situacao = "IRREGULAR" ∧
      ∃ item, (demo_record "52998224725").pendencias = .vlist [item]) :=
  c2_general_flow_demo_fallback envNone "52998224725" Eff.init
    (Or.inl rfl) (Or.inl rfl) (Or.inl rfl)

lemma normalize_situacao (data : Payload) (doc : String) (rec : CanonicalRecord)
    (h : normalize_payload data doc = .ok rec) :
    pyUpper (pyOr (pyGet data "situacao") (pyOr (pyGet data "status") (.vstr "—"))) =
      .ok rec.situacao := by
  unfold normalize_payload at h
  split at h
  · exact absurd h (by simp)
  · split at h
    · exact absurd h (by simp)
    · rename_i hu
      obtain rfl : _ = rec := Except.ok.inj h
      exact hu

/-- C3 counterexample: with neither `situacao` nor `status` present, the
normalized status is the placeholder "—", not "UNKNOWN". -/
theorem c3_counterexample :
    normalize_payload [] "52998224725" =
      .ok ⟨"52998224725", .vstr "—", "—", .vlist [], []⟩ ∧
    ("—" : String) ≠ "UNKNOWN" :=
  ⟨rfl, by decide⟩

/-- C3 (amended): the normalized `situacao` is the upper-cased value of
the first *truthy* source field among `situacao` and `status` (for string
values), and is the placeholder "—" — not "UNKNOWN" — when neither is
present/truthy. -/
theorem c3_status_amended (data : Payload) (doc : String) (rec : CanonicalRecord)
    (h : normalize_payload data doc = .ok rec) :
    (truthy (pyGet data "situacao") = false → truthy (pyGet data "status") = false →
      rec.situacao = "—") ∧
    (∀ s, pyGet data "situacao" = .vstr s → s ≠ "" → rec.situacao = upperStr s) ∧
    (truthy (pyGet data "situacao") = false →
      ∀ s, pyGet data "status" = .vstr s → s ≠ "" → rec.situacao = upperStr s) := by
  have hs := normalize_situacao data doc rec h
  refine ⟨?_, ?_, ?_⟩
  · intro h1 h2
    rw [pyOr, if_neg (by simp [h1]), pyOr, if_neg (by simp [h2])] at hs
    have : upperStr "—" = rec.situacao := Except.ok.inj hs
    rw [← this]
    decide
  · intro s hsit hne
    rw [hsit] at hs
    rw [pyOr, if_pos (by simp [truthy, bne_iff_ne.mpr hne])] at hs
    exact (Except.ok.inj hs).symm
  · intro h1 s hst hne
    rw [pyOr, if_neg (by simp [h1]), hst, pyOr,
        if_pos (by simp [truthy, bne_iff_ne.mpr hne])] at hs
    exact (Except.ok.inj hs).symm

theorem c3_witness :
    (⟨"52998224725", .vstr "—", "REGULAR", .vlist [],
      [("status", Val.vstr "regular")]⟩ : CanonicalRecord).situacao = upperStr "regular" :=
  (c3_status_amended [("status", Val.vstr "regular")] "52998224725"
      ⟨"52998224725", .vstr "—", "REGULAR", .vlist [], [("status", Val.vstr "regular")]⟩
      rfl).2.2 rfl "regular" rfl (by decide)

/-- Values on which `normalize_payload`'s string operations are safe:
strings, or anything falsy (which the `or`-chains skip or replace). -/
def str_or_falsy (v : Val) : Bool :=
  match v with
  | .vstr _ => true
  | v => !truthy v

lemma pyOr_str_chain (a : Val) (x : Val) (ha : str_or_falsy a = true)
    (hx : ∃ t, x = .vstr t) : ∃ t, pyOr a x = .vstr t := by
  obtain ⟨t, rfl⟩ := hx
  cases a with
  | vstr s =>
    unfold pyOr
    split
    · exact ⟨s, rfl⟩
    · exact ⟨t, rfl⟩
  | vnone => exact ⟨t, rfl⟩
  | vint n =>
    simp only [str_or_falsy, Bool.not_eq_true'] at ha
    simp [pyOr, ha]
  | vfloat q =>
    simp only [str_or_falsy, Bool.not_eq_true'] at ha
    simp [pyOr, ha]
  | vlist xs =>
    simp only [str_or_falsy, Bool.not_eq_true'] at ha
    simp [pyOr, ha]
  | vdict es =>
    simp only [str_or_falsy, Bool.not_eq_true'] at ha
    simp [pyOr, ha]

lemma only_digitsV_str (t : String) : ∃ u, only_digitsV (.vstr t) = .ok u := by
  unfold only_digitsV pyOr
  by_cases h : truthy (.vstr t) = true
  · rw [if_pos h]
    exact ⟨_, rfl⟩
  · rw [if_neg h]
    exact ⟨_, rfl⟩

/-- C4 counterexample: a payload whose `situacao` field holds a (truthy)
number makes `normalize_payload` raise (`.upper()` on a non-string), so
normalization is not total over arbitrary values. -/
theorem c4_counterexample :
    normalize_payload [("situacao", Val.vint 1)] "52998224725" =
      .error "AttributeError: object has no attribute upper" := rfl

/-- C4 (amended): `normalize_payload` returns a record — and retains the
raw payload unchanged in its audit field — provided the identifier and
status source fields hold strings or falsy values (absent fields degrade
to defaults); for other value shapes it can raise. -/
theorem c4_normalize_total_amended (data : Payload) (doc : String)
    (h1 : str_or_falsy (pyGet data "documento") = true)
    (h2 : str_or_falsy (pyGet data "cpf") = true)
    (h3 : str_or_falsy (pyGet data "cnpj") = true)
    (h4 : str_or_falsy (pyGet data "situacao") = true)
    (h5 : str_or_falsy (pyGet data "status") = true) :
    ∃ rec, normalize_payload data doc = .ok rec ∧ rec.raw = data := by
  obtain ⟨t1, ht1⟩ :=
    pyOr_str_chain _ _ h1 (pyOr_str_chain _ _ h2 (pyOr_str_chain _ _ h3 ⟨doc, rfl⟩))
  obtain ⟨u1, hu1⟩ := only_digitsV_str t1
  obtain ⟨t2, ht2⟩ := pyOr_str_chain _ _ h4 (pyOr_str_chain _ _ h5 ⟨"—", rfl⟩)
  unfold normalize_payload
  rw [ht1, hu1, ht2]
  exact ⟨_, rfl, rfl⟩

theorem c4_witness :
    ∃ rec, normalize_payload [("nome", Val.vstr "X")] "52998224725" = .ok rec ∧
      rec.raw = [("nome", Val.vstr "X")] :=
  c4_normalize_total_amended [("nome", Val.vstr "X")] "52998224725" rfl rfl rfl rfl rfl

/-- Gateway and PMSP both configured; the gateway succeeds. -/
def cfgC5 : Config :=
  ⟨some "https://gw.example", some "key1", none, none, some "https://pmsp.example", some "key2"⟩

def gwPayload : Payload :=
  [("documento", .vstr "52998224725"), ("nome", .vstr "Fulano"),
   ("situacao", .vstr "REGULAR"), ("pendencias", .vlist [])]

def envC5 : Env :=
  ⟨cfgC5, fun _ => .ok gwPayload, fun _ => .error "unreachable",
   fun _ _ => .error "unreachable", fun _ => .error "unreachable"⟩

def gwRec : CanonicalRecord :=
  ⟨"52998224725", .vstr "Fulano", "REGULAR", .vlist [], gwPayload⟩

/-- C5 counterexample: with the municipal flow enabled and a malformed
birth date for a person identifier, the single-lookup resolution does not
stop at the user-input error — it falls through to the general flow,
issues a gateway network call (the call log is nonempty) and returns a
record with provenance "gateway", contradicting "no network call is made,
and no fallback to another provider is attempted". -/
theorem c5_counterexample :
    (resolve_single envC5 true "52998224725" (some "1990-01-01") Eff.init).2.calls =
      ["gateway"] ∧
    (resolve_single envC5 true "52998224725" (some "1990-01-01") Eff.init).1 =
      .ok (gwRec, "gateway") ∧
    (resolve_single envC5 true "52998224725" (some "1990-01-01") Eff.init).2.errors =
      ["Para PMSP – PF, informe data de nascimento no formato dd/mm/aaaa."] :=
  ⟨rfl, rfl, rfl⟩

/-- C5 (amended): within the municipal flow itself, a person identifier
with a missing or malformed birth date fails immediately: the error is
reported via `st.error`, no municipal network call is issued (the call
log is unchanged), and no provider is attempted inside the flow; the
caller (`render_single`) then falls through to the general flow, which
may issue its own network calls. -/
theorem c5_missing_birthdate_amended (env : Env) (document : String)
    (dt : Option String) (e : Eff)
    (hc : pmsp_configured env.cfg = true)
    (hcpf : is_cpf document = true)
    (hdt : dtnasc_valid dt = false) :
    resolve_pmsp env document dt e =
      ((none, none),
       logErr e "Para PMSP – PF, informe data de nascimento no formato dd/mm/aaaa.") ∧
    (resolve_pmsp env document dt e).2.calls = e.calls ∧
    resolve_single env true document dt e =
      resolve_general env document (resolve_pmsp env document dt e).2 := by
  have h1 : resolve_pmsp env document dt e =
      ((none, none),
       logErr e "Para PMSP – PF, informe data de nascimento no formato dd/mm/aaaa.") := by
    simp [resolve_pmsp, hc, hcpf, hdt]
  refine ⟨h1, by rw [h1]; rfl, ?_⟩
  simp only [resolve_single, if_true, h1]

theorem c5_witness :
    resolve_pmsp envC5 "52998224725" (some "1990-01-01") Eff.init =
      ((none, none),
       logErr Eff.init "Para PMSP – PF, informe data de nascimento no formato dd/mm/aaaa.") ∧
    (resolve_pmsp envC5 "52998224725" (some "1990-01-01") Eff.init).2.calls = Eff.init.calls ∧
    resolve_single envC5 true "52998224725" (some "1990-01-01") Eff.init =
      resolve_general envC5 "52998224725"
        (resolve_pmsp envC5 "52998224725" (some "1990-01-01") Eff.init).2 :=
  c5_missing_birthdate_amended envC5 "52998224725" (some "1990-01-01") Eff.init rfl rfl rfl

/-- PMSP unconfigured. -/
def envC6U : Env :=
  ⟨cfgNone, fun _ => .error "x", fun _ => .error "x",
   fun _ _ => .error "x", fun _ => .error "x"⟩

/-- PMSP configured but its person endpoint fails. -/
def envC6F : Env :=
  ⟨⟨none, none, none, none, some "https://pmsp.example", some "key2"⟩,
   fun _ => .error "x", fun _ => .error "x",
   fun _ _ => .error "HTTP 502", fun _ => .error "HTTP 502"⟩

/-- C6 counterexample: the "not applicable" outcome (municipal provider
unconfigured) and the failure outcome (configured provider whose call
fails) are the *same* returned value `(None, None)` — callers cannot tell
the two apart from the result. -/
theorem c6_counterexample :
    (resolve_pmsp envC6U "52998224725" (some "01/01/1990") Eff.init).1 = (none, none) ∧
    (resolve_pmsp envC6F "52998224725" (some "01/01/1990") Eff.init).1 = (none, none) ∧
    (resolve_pmsp envC6U "52998224725" (some "01/01/1990") Eff.init).1 =
      (resolve_pmsp envC6F "52998224725" (some "01/01/1990") Eff.init).1 :=
  ⟨rfl, rfl, rfl⟩

/-- C6 (amended): when the municipal provider is unconfigured
`resolve_pmsp` returns `(None, None)` with no side effects; when a
configured municipal person call fails it returns the *same* value
`(None, None)` (distinguished only by an `st.warning` side effect, not by
the returned outcome); in either case the caller, seeing no payload,
falls through to the general flow. -/
theorem c6_not_applicable_amended (env : Env) (d : String) (dt : Option String) (e : Eff) :
    (pmsp_configured env.cfg = false → resolve_pmsp env d dt e = ((none, none), e)) ∧
    (∀ m, pmsp_configured env.cfg = true → is_cpf d = true → dtnasc_valid dt = true →
      env.pmspPfFetch (only_digits d) (pyStrip (dt.getD "")) = .error m →
      (resolve_pmsp env d dt e).1 = (none, none) ∧
      (resolve_pmsp env d dt e).2.warnings = e.warnings ++ ["PMSP PF falhou: " ++ m]) ∧
    ((resolve_pmsp env d dt e).1.1 = none →
      resolve_single env true d dt e = resolve_general env d (resolve_pmsp env d dt e).2) := by
  refine ⟨?_, ?_, ?_⟩
  · intro hc
    simp [resolve_pmsp, hc]
  · intro m hc hcpf hdt hm
    have h1 : resolve_pmsp env d dt e =
        ((none, none), logWarn (logCall e "pmsp_pf") ("PMSP PF falhou: " ++ m)) := by
      simp [resolve_pmsp, hc, hcpf, hdt, fetch_cadin_pmsp_pf, hm]
    rw [h1]
    exact ⟨rfl, by simp [logWarn, logCall]⟩
  · intro hnone
    simp only [resolve_single, if_true]
    cases hq : resolve_pmsp env d dt e with
    | mk pf e2 =>
      obtain ⟨p, f⟩ := pf
      rw [hq] at hnone
      simp only at hnone
      subst hnone
      rfl

theorem c6_witness :
    resolve_pmsp envC6U "11222333000181" none Eff.init = ((none, none), Eff.init) ∧
    ((resolve_pmsp envC6U "11222333000181" none Eff.init).1.1 = none →
      resolve_single envC6U true "11222333000181" none Eff.init =
        resolve_general envC6U "11222333000181"
          (resolve_pmsp envC6U "11222333000181" none Eff.init).2) :=
  ⟨(c6_not_applicable_amended envC6U "11222333000181" none Eff.init).1 rfl,
   (c6_not_applicable_amended envC6U "11222333000181" none Eff.init).2.2⟩

/-- C7: the batch report has exactly one row per valid-length identifier
(11 or 14 digits after canonicalization), in input order, each row built
from its identifier (formatted document and kind label); invalid-length
inputs contribute no row; and the batch aborts with the no-valid-input
error exactly when zero valid identifiers remain after filtering. -/
theorem c7_batch_one_row_per_valid_doc (env : Env) (pmsp_on : Bool) (frame : Frame) :
    (render_batch_result env pmsp_on frame = .error noValidMsg ↔
      valid_docs frame.documento = []) ∧
    (∀ rows, render_batch_result env pmsp_on frame = .ok rows →
      rows.length = (valid_docs frame.documento).length ∧
      ∀ i (hi : i < (valid_docs frame.documento).length),
        ∃ hr : i < rows.length,
          (rows.get ⟨i, hr⟩).documento = fmt_doc ((valid_docs frame.documento).get ⟨i, hi⟩) ∧
          (rows.get ⟨i, hr⟩).tipo = label_doc ((valid_docs frame.documento).get ⟨i, hi⟩)) := by
  constructor
  · constructor
    · intro h
      by_contra hne
      have hie : (valid_docs frame.documento).isEmpty = false := by
        cases hd : valid_docs frame.documento with
        | nil => exact absurd hd hne
        | cons a l => rfl
      unfold render_batch_result at h
      simp only [hie, Bool.false_eq_true, if_false] at h
      exact absurd (rows_loop_error env pmsp_on frame _ 0 noValidMsg h) (by decide)
    · intro h
      unfold render_batch_result
      rw [h]
      rfl
  · intro rows hrows
    have hie : (valid_docs frame.documento).isEmpty = false := by
      cases hd : (valid_docs frame.documento).isEmpty with
      | false => rfl
      | true =>
        unfold render_batch_result at hrows
        simp [hd] at hrows
    unfold render_batch_result at hrows
    simp only [hie, Bool.false_eq_true, if_false] at hrows
    obtain ⟨hlen, hget⟩ := rows_loop_spec env pmsp_on frame _ 0 rows hrows
    refine ⟨hlen, ?_⟩
    intro i hi
    obtain ⟨hr, hrow⟩ := hget i hi
    rw [Nat.zero_add] at hrow
    obtain ⟨hdoc, htipo⟩ := row_for_fields env pmsp_on frame i _ _ hrow
    exact ⟨hr, hdoc, htipo⟩

/-- A three-row batch: a valid person id, a valid entity id, and a
malformed id. -/
def frame3 : Frame := ⟨["529.982.247-25", "11.222.333/0001-81", "12345"], none⟩

/-- The two-row report the demo fallback produces for `frame3`. -/
def rows3 : List BatchRow :=
  [⟨"529.982.247-25", "CPF", .vstr "Pessoa Física (demo)", "IRREGULAR", 1, "demo"⟩,
   ⟨"11.222.333/0001-81", "CNPJ", .vstr "Empresa Ltda (demo)", "IRREGULAR", 1, "demo"⟩]

theorem c7_witness :
    rows3.length = (valid_docs frame3.documento).length ∧
    ∀ i (hi : i < (valid_docs frame3.documento).length),
      ∃ hr : i < rows3.length,
        (rows3.get ⟨i, hr⟩).documento = fmt_doc ((valid_docs frame3.documento).get ⟨i, hi⟩) ∧
        (rows3.get ⟨i, hr⟩).tipo = label_doc ((valid_docs frame3.documento).get ⟨i, hi⟩) :=
  (c7_batch_one_row_per_valid_doc envNone false frame3).2 rows3 rfl

/-- C8: batch rows are failure-isolated.  If each row either has all its
providers failing/unconfigured or resolves to some row, then the batch
report is produced in full — one row per valid identifier — and every
all-providers-failing row still contributes its present, degraded demo
row (it aborts nothing and blocks no other row). -/
theorem c8_batch_failure_isolated (env : Env) (pmsp_on : Bool) (frame : Frame)
    (hne : valid_docs frame.documento ≠ [])
    (h : ∀ i (hi : i < (valid_docs frame.documento).length),
      provider_all_fail env ((valid_docs frame.documento).get ⟨i, hi⟩) ∨
      ∃ r, row_for env pmsp_on frame i ((valid_docs frame.documento).get ⟨i, hi⟩) = .ok r) :
    ∃ rows, render_batch_result env pmsp_on frame = .ok rows ∧
      rows.length = (valid_docs frame.documento).length ∧
      ∀ i (hi : i < (valid_docs frame.documento).length),
        provider_all_fail env ((valid_docs frame.documento).get ⟨i, hi⟩) →
        ∃ hr : i < rows.length,
          rows.get ⟨i, hr⟩ = demo_batch_row ((valid_docs frame.documento).get ⟨i, hi⟩) := by
  have hok : ∀ i (hi : i < (valid_docs frame.documento).length),
      ∃ r, row_for env pmsp_on frame (0 + i) ((valid_docs frame.documento).get ⟨i, hi⟩) = .ok r := by
    intro i hi
    rcases h i hi with hf | ⟨r, hr⟩
    · exact ⟨_, by rw [Nat.zero_add]; exact row_for_demo env pmsp_on frame i _ hf⟩
    · exact ⟨r, by rw [Nat.zero_add]; exact hr⟩
  obtain ⟨rows, hrows⟩ := rows_loop_all_ok env pmsp_on frame _ 0 hok
  have hie : (valid_docs frame.documento).isEmpty = false := by
    cases hd : valid_docs frame.documento with
    | nil => exact absurd hd hne
    | cons a l => rfl
  have hresult : render_batch_result env pmsp_on frame = .ok rows := by
    unfold render_batch_result
    simp only [hie, Bool.false_eq_true, if_false]
    exact hrows
  obtain ⟨hlen, hget⟩ := rows_loop_spec env pmsp_on frame _ 0 rows hrows
  refine ⟨rows, hresult, hlen, ?_⟩
  intro i hi hfail
  obtain ⟨hr, hrow⟩ := hget i hi
  rw [Nat.zero_add] at hrow
  rw [row_for_demo env pmsp_on frame i _ hfail] at hrow
  exact ⟨hr, (Except.ok.inj hrow).symm⟩

theorem c8_witness :
    ∃ rows, render_batch_result envNone false frame3 = .ok rows ∧
      rows.length = (valid_docs frame3.documento).length ∧
      ∀ i (hi : i < (valid_docs frame3.documento).length),
        provider_all_fail envNone ((valid_docs frame3.documento).get ⟨i, hi⟩) →
        ∃ hr : i < rows.length,
          rows.get ⟨i, hr⟩ = demo_batch_row ((valid_docs frame3.documento).get ⟨i, hi⟩) :=
  c8_batch_failure_isolated envNone false frame3 (by decide)
    (fun _ _ => Or.inl ⟨⟨Or.inl rfl, Or.inl rfl⟩, Or.inl rfl⟩)

/-- C9 (cache, modelled from the spec): for a fixed provider+identifier
(+ extra parameter) key, (a) two lookups within the TTL window issue at
most one network call when the first lookup's result is successful;
(b) a lookup that finds only an entry older than the TTL issues a new
network call; (c) a failed fetch attempt leaves the cache unchanged while
still counting as a network call, so the lookup following the failure
issues a new network call as well. -/
theorem c9_cache_ttl_semantics (net : Nat → Except String Payload)
    (cache : List (CacheKey × CacheEntry)) (k : CacheKey) :
    (∀ t1 t2, (cache_lookup net cache k t1).result.isOk = true →
      t2 - t1 < CACHE_TTL →
      (cache_lookup net cache k t1).networkCalled.toNat +
        (cache_lookup net (cache_lookup net cache k t1).cache k t2).networkCalled.toNat ≤ 1) ∧
    (∀ t entry, cache.lookup k = some entry → CACHE_TTL ≤ t - entry.storedAt →
      (cache_lookup net cache k t).networkCalled = true) ∧
    (∀ t t' m, cache.lookup k = none → net t = .error m →
      (cache_lookup net cache k t).cache = cache ∧
      (cache_lookup net cache k t).networkCalled = true ∧
      (cache_lookup net (cache_lookup net cache k t).cache k t').networkCalled = true) := by
  have hmiss_ok : ∀ t v, net t = .ok v →
      cache.lookup k = none ∨ (∀ e, cache.lookup k = some e → ¬ t - e.storedAt < CACHE_TTL) →
      cache_lookup net cache k t = ⟨.ok v, (k, ⟨v, t⟩) :: cache, true⟩ := by
    intro t v hnet h
    unfold cache_lookup
    rcases h with h | h
    · simp [h, hnet]
    · cases hl : cache.lookup k with
      | none => simp [hnet]
      | some e => simp [hnet, h e hl]
  refine ⟨?_, ?_, ?_⟩
  · intro t1 t2 hok hwin
    cases hl : cache.lookup k with
    | some entry =>
      by_cases hfresh : t1 - entry.storedAt < CACHE_TTL
      · have h1 : cache_lookup net cache k t1 = ⟨.ok entry.value, cache, false⟩ := by
          unfold cache_lookup
          simp [hl, hfresh]
        rw [h1]
        have : (cache_lookup net cache k t2).networkCalled.toNat ≤ 1 := by
          cases (cache_lookup net cache k t2).networkCalled <;> simp
        simpa using this
      · cases hnet : net t1 with
        | ok v =>
          have h1 := hmiss_ok t1 v hnet (Or.inr (fun e he => by
            rw [hl] at he
            exact (Option.some.inj he) ▸ hfresh))
          rw [h1]
          have h2 : cache_lookup net ((k, ⟨v, t1⟩) :: cache) k t2 =
              ⟨.ok v, (k, ⟨v, t1⟩) :: cache, false⟩ := by
            unfold cache_lookup
            have : List.lookup k ((k, (⟨v, t1⟩ : CacheEntry)) :: cache) = some ⟨v, t1⟩ := by
              simp [List.lookup]
            simp [this, hwin]
          rw [h2]
          simp
        | error m =>
          have h1 : cache_lookup net cache k t1 = ⟨.error m, cache, true⟩ := by
            unfold cache_lookup
            simp [hl, hfresh, hnet]
          rw [h1] at hok
          simp [Except.isOk, Except.toBool] at hok
    | none =>
      cases hnet : net t1 with
      | ok v =>
        have h1 := hmiss_ok t1 v hnet (Or.inl hl)
        rw [h1]
        have h2 : cache_lookup net ((k, ⟨v, t1⟩) :: cache) k t2 =
            ⟨.ok v, (k, ⟨v, t1⟩) :: cache, false⟩ := by
          unfold cache_lookup
          have : List.lookup k ((k, (⟨v, t1⟩ : CacheEntry)) :: cache) = some ⟨v, t1⟩ := by
            simp [List.lookup]
          simp [this, hwin]
        rw [h2]
        simp
      | error m =>
        have h1 : cache_lookup net cache k t1 = ⟨.error m, cache, true⟩ := by
          unfold cache_lookup
          simp [hl, hnet]
        rw [h1] at hok
        simp [Except.isOk, Except.toBool] at hok
  · intro t entry hl hexp
    unfold cache_lookup
    cases hnet : net t <;> simp [hl, hnet, Nat.not_lt.mpr hexp]
  · intro t t' m hl hnet
    have h1 : cache_lookup net cache k t = ⟨.error m, cache, true⟩ := by
      unfold cache_lookup
      simp [hl, hnet]
    rw [h1]
    refine ⟨rfl, rfl, ?_⟩
    unfold cache_lookup
    cases hnet' : net t' <;> simp [hl, hnet']

/-- A network that answers successfully at time 0 only. -/
def net0 : Nat → Except String Payload :=
  fun t => if t == 0 then .ok [] else .error "boom"

/-- A network that always fails. -/
def netE : Nat → Except String Payload := fun _ => .error "down"

def k0 : CacheKey := ("gateway", "52998224725", "")

def cache1 : List (CacheKey × CacheEntry) := [(k0, ⟨[], 0⟩)]

theorem c9_witness :
    ((cache_lookup net0 [] k0 0).networkCalled.toNat +
      (cache_lookup net0 (cache_lookup net0 [] k0 0).cache k0 10).networkCalled.toNat ≤ 1) ∧
    (cache_lookup net0 cache1 k0 700).networkCalled = true ∧
    ((cache_lookup netE [] k0 5).cache = [] ∧
     (cache_lookup netE [] k0 5).networkCalled = true ∧
     (cache_lookup netE (cache_lookup netE [] k0 5).cache k0 6).networkCalled = true) :=
  ⟨(c9_cache_ttl_semantics net0 [] k0).1 0 10 rfl (by decide),
   (c9_cache_ttl_semantics net0 cache1 k0).2.1 700 ⟨[], 0⟩ rfl (by decide),
   (c9_cache_ttl_semantics netE [] k0).2.2 5 6 "down" rfl rfl⟩

/-- A batch whose first row holds an invalid document (and birth date
"01/01/1990") and whose second row holds a valid person document (and
birth date "02/02/1992"). -/
def frame10 : Frame := ⟨["abc", "52998224725"], some ["01/01/1990", "02/02/1992"]⟩

/-- PMSP configured; its person oracle echoes the birth date it was sent
back into the `nome` field, making the transmitted parameter observable
in the report. -/
def env10 : Env :=
  ⟨⟨none, none, none, none, some "https://pmsp.example", some "key2"⟩,
   fun _ => .error "x", fun _ => .error "x",
   fun _ dt => .ok [("nome", .vstr dt)], fun _ => .error "x"⟩

/-- C10: batch birth-date lookup is positional over the original frame.
For `frame10`, the only valid identifier sits in CSV row 1 (birth date
"02/02/1992"), but its post-filter position is 0, so the municipal person
provider receives the birth date of row 0 — "01/01/1990", the row of the
invalid document — as the echoed `nome` field of the report row shows. -/
theorem c10_batch_birthdate_misaligned :
    batch_dtnasc frame10 0 = "01/01/1990" ∧
    render_batch_result env10 true frame10 =
      .ok [⟨"529.982.247-25", "CPF", .vstr "01/01/1990", "—", 0, "pmsp_pf"⟩] ∧
    frame10.documento.get? 1 = some "52998224725" ∧
    (frame10.dtnasc.getD []).get? 1 = some "02/02/1992" ∧
    ("01/01/1990" : String) ≠ "02/02/1992" :=
  ⟨rfl, rfl, rfl, rfl, by decide⟩
